import Mathlib

/-!
Shallow embedding of the Security Dashboard core: the threat detection
engine (`src/threat_detector.py`) and the alert lifecycle manager
(`src/alert_manager.py`).

Modelling conventions:
- Python wall-clock reads (`time.time()`, `datetime.now()`) are modelled by an
  explicit `now : Int` parameter (seconds); ISO-format timestamp strings stored
  by the code are modelled by the integer timestamp they encode.
- The random alert-id suffix `random.randint(1000, 9999)` is an explicit
  parameter `r : Int`; the detector's simulated `analysis_duration_ms` is an
  explicit parameter `dur : Int`.
- Python dicts with a fixed key set become structures; optional/possibly-missing
  keys become `Option` fields, with `.getD` modelling `dict.get(k, default)`.
- The heterogeneous `details` dicts become an explicit value type `Val`.
- `try/except` blocks whose bodies cannot raise on well-typed input are not
  given an error branch; boolean/None failure results are modelled directly.
-/

/-- Values stored in the heterogeneous `details` dictionaries. -/
inductive Val where
  | i (n : Int)
  | s (str : String)
  | arr (l : List Val)
  | obj (l : List (String × Val))

/-- Entry of `AlertManager.severity_levels`. -/
structure SeverityInfo where
  priority : Nat
  color : String
  icon : String

/-- Entry of `AlertManager.alert_rules`.  `resolve_threshold` is present only
for the `resource_abuse` rule, hence the `Option`. -/
structure AlertRule where
  auto_resolve : Bool
  resolve_threshold : Option Int
  escalation_time : Int
  notification_channels : List String

/-- The `escalation_time` field of an alert dict holds a `datetime` deadline at
creation and is overwritten with an ISO string when the alert is escalated;
both are modelled by the integer timestamp they carry. -/
inductive EscTime where
  | deadline (t : Int)
  | escalatedAt (t : Int)

/-- A threat dict as produced by `ThreatDetector` (all of its emission sites
set exactly these keys; `details` is absent on the error threats). -/
structure Threat where
  id : String
  timestamp : Int
  type : String
  severity : String
  description : String
  source : String
  details : Option (List (String × Val))
  status : String

/-- An alert dict as built by `AlertManager.create_alert`, fields in source
order. -/
structure Alert where
  id : String
  threat_id : String
  timestamp : Int
  type : String
  severity : String
  description : String
  source : String
  status : String
  details : List (String × Val)
  priority : Nat
  color : String
  icon : String
  escalation_time : EscTime
  auto_resolve : Bool
  notification_channels : List String
  acknowledged : Bool
  acknowledged_by : Option String
  acknowledged_at : Option Int
  resolved : Bool
  resolved_at : Option Int
  resolution_notes : Option String

/-- Mutable state of `AlertManager` (the rule/severity tables are constants,
modelled as functions below). -/
structure AlertManager where
  alerts : List Alert
  alert_history : List Alert

/-- Record appended to `ThreatDetector.analysis_history`. -/
structure AnalysisRecord where
  timestamp : Int
  threats_found : Nat
  analysis_duration_ms : Int

/-- Mutable state of `ThreatDetector`; `last_alert_time` is the cooldown map
(a Python dict from threat type to timestamp, modelled as an assoc list). -/
structure ThreatDetector where
  detected_threats : List Threat
  analysis_history : List AnalysisRecord
  last_alert_time : List (String × Int)

/-- System-metrics snapshot shape consumed by the detector; each `Option Int`
models the nested lookup `snap.get(section, {}).get(field, 0)`. -/
structure SystemSnapshot where
  cpu : Option Int
  memory : Option Int
  disk : Option Int
  processes : Option Int

/-- Network-traffic snapshot shape consumed by the detector. -/
structure NetworkSnapshot where
  connections_total : Option Int
  listening : Option Int
  errors_in : Option Int
  errors_out : Option Int

/-- A log event `{severity, message}`. -/
structure SecurityEvent where
  severity : Option String
  message : Option String

/-- The `security_data` / `current_metrics` dict fed to `analyze_data` and
`auto_resolve_alerts`. -/
structure SecurityData where
  system_metrics : List SystemSnapshot
  network_traffic : List NetworkSnapshot
  security_events : List SecurityEvent

/-- Fresh `AlertManager.__init__` state. -/
def initial_manager : AlertManager := ⟨[], []⟩

/-- Fresh `ThreatDetector.__init__` state. -/
def initial_detector : ThreatDetector := ⟨[], [], []⟩

/-- The `severity_levels` table of `AlertManager.__init__`. -/
def severity_levels : String → Option SeverityInfo
  | "low" => some ⟨1, "#28a745", "info-circle"⟩
  | "medium" => some ⟨2, "#ffc107", "exclamation-triangle"⟩
  | "high" => some ⟨3, "#fd7e14", "exclamation-circle"⟩
  | "critical" => some ⟨4, "#dc3545", "times-circle"⟩
  | _ => none

/-- The `alert_rules` table of `AlertManager.__init__`. -/
def alert_rules : String → Option AlertRule
  | "resource_abuse" => some ⟨true, some 70, 300, ["dashboard", "log"]⟩
  | "network_anomaly" => some ⟨false, none, 180, ["dashboard", "log", "email"]⟩
  | "brute_force" => some ⟨false, none, 60, ["dashboard", "log", "email", "sms"]⟩
  | "security_event" => some ⟨false, none, 120, ["dashboard", "log", "email"]⟩
  | _ => none

/-- Fields of `ThreatDetector.threat_patterns`. -/
def brute_force_failed_logins_threshold : Nat := 5
def brute_force_severity : String := "high"
def resource_abuse_cpu_threshold : Int := 95
def resource_abuse_memory_threshold : Int := 98
def resource_abuse_disk_threshold : Int := 95
def resource_abuse_severity : String := "medium"
def network_anomaly_connection_threshold : Int := 1500
def network_anomaly_port_scan_threshold : Int := 50
def network_anomaly_severity : String := "high"
def suspicious_process_severity : String := "medium"

/-- The detector's `alert_cooldown` (seconds). -/
def alert_cooldown : Int := 60

/-- Python dict lookup `m.get(k)` on the cooldown map. -/
def getKey? (m : List (String × Int)) (k : String) : Option Int :=
  (m.find? (fun kv => kv.1 == k)).map (fun kv => kv.2)

/-- Python dict assignment `m[k] = v` on the cooldown map (updates in place,
appends if absent). -/
def setKey : List (String × Int) → String → Int → List (String × Int)
  | [], k, v => [(k, v)]
  | (k', v') :: rest, k, v =>
      if k' = k then (k', v) :: rest else (k', v') :: setKey rest k v

/-- Replace the first element satisfying `p` (Python mutates the object found
by a linear scan; all mutating manager operations act on `_find_alert`'s
result, i.e. the first id match). -/
def updateFirst (p : α → Bool) (f : α → α) : List α → List α
  | [] => []
  | a :: as => if p a then f a :: as else a :: updateFirst p f as

/-- Remove the first element satisfying `p` (Python `list.remove`). -/
def removeFirst (p : α → Bool) : List α → List α
  | [] => []
  | a :: as => if p a then as else a :: removeFirst p as

/-- Bound of `alert_history`: keep only the last 1000 entries. -/
def trim_history (l : List Alert) : List Alert :=
  if l.length > 1000 then l.drop (l.length - 1000) else l

/-- Bound of `analysis_history`: keep only the last 100 records. -/
def trim_analysis_history (l : List AnalysisRecord) : List AnalysisRecord :=
  if l.length > 100 then l.drop (l.length - 100) else l

/-- Character-list prefix test (the core `String` routines do not reduce in
the kernel, so the Python string predicates are modelled on `String.data`). -/
def list_begins : List Char → List Char → Bool
  | [], _ => true
  | _ :: _, [] => false
  | p :: ps, c :: cs => p == c && list_begins ps cs

/-- Python prefix test `s.startswith(pre)`. -/
def str_starts_with (s pre : String) : Bool := list_begins pre.data s.data

/-- Helper for the substring test: does `sub` begin at any position of `l`. -/
def contains_aux (sub : List Char) : List Char → Bool
  | [] => sub.isEmpty
  | c :: t => list_begins sub (c :: t) || contains_aux sub t

/-- Python substring test `sub in s`. -/
def containsSub (s sub : String) : Bool := contains_aux sub.data s.data

/-- Python `s.lower()`. -/
def str_to_lower (s : String) : String := ⟨s.data.map Char.toLower⟩

/-- ThreatDetector._should_send_alert: fires on first occurrence or once the
cooldown has elapsed, refreshing the stored timestamp whenever it fires. -/
def should_send_alert (det : ThreatDetector) (alert_type : String) (now : Int) :
    Bool × ThreatDetector :=
  match getKey? det.last_alert_time alert_type with
  | none => (true, { det with last_alert_time := setKey det.last_alert_time alert_type now })
  | some last =>
      if now - last ≥ alert_cooldown then
        (true, { det with last_alert_time := setKey det.last_alert_time alert_type now })
      else
        (false, det)

/-- ThreatDetector._analyze_system_metrics.  The three resource checks are
stateless; the process check consults (and may refresh) the cooldown map. -/
def analyze_system_metrics (det : ThreatDetector) (system_data : SystemSnapshot) (now : Int) :
    List Threat × ThreatDetector :=
  let cpu_threats : List Threat :=
    if system_data.cpu.getD 0 > resource_abuse_cpu_threshold then
      [{ id := "cpu_abuse_" ++ toString now
         timestamp := now
         type := "resource_abuse"
         severity := resource_abuse_severity
         description := "High CPU usage detected: " ++ toString (system_data.cpu.getD 0) ++ "%"
         source := "system_monitor"
         details := some [("cpu_usage", Val.i (system_data.cpu.getD 0)),
                          ("threshold", Val.i resource_abuse_cpu_threshold)]
         status := "detected" }]
    else []
  let memory_threats : List Threat :=
    if system_data.memory.getD 0 > resource_abuse_memory_threshold then
      [{ id := "memory_abuse_" ++ toString now
         timestamp := now
         type := "resource_abuse"
         severity := resource_abuse_severity
         description := "High memory usage detected: " ++ toString (system_data.memory.getD 0) ++ "%"
         source := "system_monitor"
         details := some [("memory_usage", Val.i (system_data.memory.getD 0)),
                          ("threshold", Val.i resource_abuse_memory_threshold)]
         status := "detected" }]
    else []
  let disk_threats : List Threat :=
    if system_data.disk.getD 0 > resource_abuse_disk_threshold then
      [{ id := "disk_abuse_" ++ toString now
         timestamp := now
         type := "resource_abuse"
         severity := resource_abuse_severity
         description := "High disk usage detected: " ++ toString (system_data.disk.getD 0) ++ "%"
         source := "system_monitor"
         details := some [("disk_usage", Val.i (system_data.disk.getD 0)),
                          ("threshold", Val.i resource_abuse_disk_threshold)]
         status := "detected" }]
    else []
  if system_data.processes.getD 0 > 500 then
    let res := should_send_alert det "process_anomaly" now
    (cpu_threats ++ memory_threats ++ disk_threats ++
      (if res.1 then
        [{ id := "process_anomaly_" ++ toString now
           timestamp := now
           type := "suspicious_process"
           severity := suspicious_process_severity
           description := "Unusually high number of processes: " ++
                          toString (system_data.processes.getD 0)
           source := "system_monitor"
           details := some [("process_count", Val.i (system_data.processes.getD 0)),
                            ("threshold", Val.i 500)]
           status := "detected" }]
       else []), res.2)
  else
    (cpu_threats ++ memory_threats ++ disk_threats, det)

/-- ThreatDetector._analyze_network_traffic (stateless). -/
def analyze_network_traffic (network_data : NetworkSnapshot) (now : Int) : List Threat :=
  let connection_threats : List Threat :=
    if network_data.connections_total.getD 0 > network_anomaly_connection_threshold then
      [{ id := "network_anomaly_" ++ toString now
         timestamp := now
         type := "network_anomaly"
         severity := network_anomaly_severity
         description := "Excessive network connections detected: " ++
                        toString (network_data.connections_total.getD 0)
         source := "network_monitor"
         details := some [("connection_count", Val.i (network_data.connections_total.getD 0)),
                          ("threshold", Val.i network_anomaly_connection_threshold)]
         status := "detected" }]
    else []
  let listening_ports := network_data.listening.getD 0
  let port_threats : List Threat :=
    if listening_ports > network_anomaly_port_scan_threshold then
      [{ id := "port_scan_" ++ toString now
         timestamp := now
         type := "network_anomaly"
         severity := network_anomaly_severity
         description := "High number of listening ports: " ++ toString listening_ports
         source := "network_monitor"
         details := some [("listening_ports", Val.i listening_ports),
                          ("threshold", Val.i network_anomaly_port_scan_threshold)]
         status := "detected" }]
    else []
  let error_threats : List Threat :=
    if network_data.errors_in.getD 0 > 100 ∨ network_data.errors_out.getD 0 > 100 then
      [{ id := "network_errors_" ++ toString now
         timestamp := now
         type := "network_anomaly"
         severity := "medium"
         description := "High network error rate detected"
         source := "network_monitor"
         details := some [("errors_in", Val.i (network_data.errors_in.getD 0)),
                          ("errors_out", Val.i (network_data.errors_out.getD 0))]
         status := "detected" }]
    else []
  connection_threats ++ port_threats ++ error_threats

/-- Rendering of a raw event dict into the `details.events` preview list. -/
def event_val (e : SecurityEvent) : Val :=
  Val.obj ((match e.severity with
            | some s => [("severity", Val.s s)]
            | none => []) ++
           (match e.message with
            | some m => [("message", Val.s m)]
            | none => []))

/-- ThreatDetector._analyze_security_events (stateless). -/
def analyze_security_events (events : List SecurityEvent) (now : Int) : List Threat :=
  let high_severity := events.filter (fun e => e.severity == some "high")
  let high_threats : List Threat :=
    if high_severity.length > 0 then
      [{ id := "high_severity_events_" ++ toString now
         timestamp := now
         type := "security_event"
         severity := "high"
         description := "Multiple high severity security events detected: " ++
                        toString high_severity.length
         source := "security_monitor"
         details := some [("high_severity_count", Val.i high_severity.length),
                          ("events", Val.arr ((high_severity.take 5).map event_val))]
         status := "detected" }]
    else []
  let failed_logins := events.filter (fun e => containsSub (e.message.getD "") "Failed login attempt")
  let brute_threats : List Threat :=
    if failed_logins.length ≥ brute_force_failed_logins_threshold then
      [{ id := "brute_force_" ++ toString now
         timestamp := now
         type := "brute_force"
         severity := brute_force_severity
         description := "Potential brute force attack detected: " ++
                        toString failed_logins.length ++ " failed login attempts"
         source := "security_monitor"
         details := some [("failed_attempts", Val.i failed_logins.length),
                          ("threshold", Val.i (brute_force_failed_logins_threshold : Int))]
         status := "detected" }]
    else []
  high_threats ++ brute_threats

/-- ThreatDetector._analyze_patterns (stateless): the slice `[-3:]` of a list
of length at least 3 is `drop (length - 3)`. -/
def analyze_patterns (security_data : SecurityData) (now : Int) : List Threat :=
  let cpu_pattern_threats : List Threat :=
    if security_data.system_metrics.length ≥ 3 then
      let recent_metrics :=
        security_data.system_metrics.drop (security_data.system_metrics.length - 3)
      let cpu_trend := recent_metrics.map (fun m => m.cpu.getD 0)
      if cpu_trend.length ≥ 2 ∧ cpu_trend.getLastD 0 - cpu_trend.headD 0 > (30 : Int) then
        [{ id := "rapid_cpu_increase_" ++ toString now
           timestamp := now
           type := "resource_abuse"
           severity := "medium"
           description := "Rapid CPU usage increase detected"
           source := "pattern_analyzer"
           details := some [("cpu_trend", Val.arr (cpu_trend.map Val.i)),
                            ("increase", Val.i (cpu_trend.getLastD 0 - cpu_trend.headD 0))]
           status := "detected" }]
      else []
    else []
  let network_pattern_threats : List Threat :=
    if security_data.network_traffic.length ≥ 3 then
      let recent_traffic :=
        security_data.network_traffic.drop (security_data.network_traffic.length - 3)
      let connection_counts := recent_traffic.map (fun t => t.connections_total.getD 0)
      if connection_counts.length ≥ 2 ∧
         connection_counts.getLastD 0 - connection_counts.headD 0 > (500 : Int) then
        [{ id := "network_spike_" ++ toString now
           timestamp := now
           type := "network_anomaly"
           severity := "medium"
           description := "Sudden network traffic spike detected"
           source := "pattern_analyzer"
           details := some [("connection_trend", Val.arr (connection_counts.map Val.i)),
                            ("spike", Val.i (connection_counts.getLastD 0 - connection_counts.headD 0))]
           status := "detected" }]
      else []
    else []
  cpu_pattern_threats ++ network_pattern_threats

/-- ThreatDetector.analyze_data.  Python truthiness `if data.get(key):` on a
list is the non-emptiness test, and `list[-1]` is `getLast?`.  `dur` supplies
the simulated `analysis_duration_ms`. -/
def analyze_data (det : ThreatDetector) (security_data : SecurityData) (now dur : Int) :
    List Threat × ThreatDetector :=
  let sysRes : List Threat × ThreatDetector :=
    match security_data.system_metrics.getLast? with
    | some latest_system => analyze_system_metrics det latest_system now
    | none => ([], det)
  let network_threats : List Threat :=
    match security_data.network_traffic.getLast? with
    | some latest_network => analyze_network_traffic latest_network now
    | none => []
  let event_threats : List Threat :=
    if security_data.security_events.isEmpty then []
    else analyze_security_events security_data.security_events now
  let pattern_threats := analyze_patterns security_data now
  let threats := sysRes.1 ++ network_threats ++ event_threats ++ pattern_threats
  (threats,
   { sysRes.2 with
       analysis_history :=
         trim_analysis_history (sysRes.2.analysis_history ++ [⟨now, threats.length, dur⟩]) })

/-- AlertManager.create_alert.  `now` is the creation timestamp and `r` the
`random.randint(1000, 9999)` disambiguator; the same record is appended to the
active list and (as a creation-time snapshot; Python takes a shallow `copy()`)
to the bounded history.  The body cannot raise on well-typed input, so the
`except: return None` path is unreachable and the created alert is returned
directly. -/
def create_alert (st : AlertManager) (now r : Int) (threat : Threat) : AlertManager × Alert :=
  let rule := alert_rules threat.type
  let sev := severity_levels threat.severity
  let alert : Alert :=
    { id := "alert_" ++ toString now ++ "_" ++ toString r
      threat_id := threat.id
      timestamp := now
      type := threat.type
      severity := threat.severity
      description := threat.description
      source := threat.source
      status := "active"
      details := threat.details.getD []
      priority := (sev.map (fun s => s.priority)).getD 1
      color := (sev.map (fun s => s.color)).getD "#6c757d"
      icon := (sev.map (fun s => s.icon)).getD "question-circle"
      escalation_time := EscTime.deadline (now + (rule.map (fun ru => ru.escalation_time)).getD 300)
      auto_resolve := (rule.map (fun ru => ru.auto_resolve)).getD false
      notification_channels := (rule.map (fun ru => ru.notification_channels)).getD ["dashboard"]
      acknowledged := false
      acknowledged_by := none
      acknowledged_at := none
      resolved := false
      resolved_at := none
      resolution_notes := none }
  ({ alerts := st.alerts ++ [alert],
     alert_history := trim_history (st.alert_history ++ [alert]) }, alert)

/-- AlertManager._find_alert: first id match among active alerts. -/
def find_alert (st : AlertManager) (alert_id : String) : Option Alert :=
  st.alerts.find? (fun a => a.id == alert_id)

/-- Field mutation `acknowledge_alert` performs on the found alert. -/
def ack_mark (now : Int) (user : String) (a : Alert) : Alert :=
  { a with acknowledged := true, acknowledged_by := some user, acknowledged_at := some now }

/-- AlertManager.acknowledge_alert: marks the found alert acknowledged by
`user` at `now`; `user` is also echoed to the log. -/
def acknowledge_alert (st : AlertManager) (now : Int) (alert_id user : String) :
    AlertManager × Bool :=
  match find_alert st alert_id with
  | some _ =>
      ({ st with
           alerts := updateFirst (fun a => a.id == alert_id) (ack_mark now user) st.alerts },
       true)
  | none => (st, false)

/-- AlertManager.resolve_alert: the found alert is marked resolved
(`resolved`, `resolved_at`, `resolution_notes`, `status`) and then removed
from the active list by `list.remove`, so the net state change is the removal
of that first id match; the history snapshot is untouched.  `user` is only
logged, never stored. -/
def resolve_alert (st : AlertManager) (now : Int) (alert_id user : String)
    (notes : Option String) : AlertManager × Bool :=
  match find_alert st alert_id with
  | some _ =>
      ({ st with alerts := removeFirst (fun a => a.id == alert_id) st.alerts }, true)
  | none => (st, false)

/-- Field mutation `escalate_alert` performs on the found alert. -/
def esc_mark (now : Int) (a : Alert) : Alert :=
  { a with status := "escalated", escalation_time := EscTime.escalatedAt now }

/-- AlertManager.escalate_alert: only an alert currently in `active` status is
escalated; its `escalation_time` is overwritten with the ISO string of `now`. -/
def escalate_alert (st : AlertManager) (now : Int) (alert_id : String) :
    AlertManager × Bool :=
  match find_alert st alert_id with
  | some a =>
      if a.status == "active" then
        ({ st with
             alerts := updateFirst (fun x => x.id == alert_id) (esc_mark now) st.alerts },
         true)
      else (st, false)
  | none => (st, false)

/-- AlertManager._check_resource_resolution for a `resource_abuse` alert:
re-derives the metric kind from the description prefix and compares the latest
snapshot's value against the rule's `resolve_threshold` (70). -/
def check_resource_resolution (alert : Alert) (current_metrics : SecurityData) : Bool :=
  match current_metrics.system_metrics.getLast? with
  | none => false
  | some latest_metrics =>
      let threshold := (((alert_rules "resource_abuse").map
        (fun ru => ru.resolve_threshold)).getD none).getD 0
      if str_starts_with alert.description "High CPU usage" then
        latest_metrics.cpu.getD 0 < threshold
      else if str_starts_with alert.description "High memory usage" then
        latest_metrics.memory.getD 0 < threshold
      else if str_starts_with alert.description "High disk usage" then
        latest_metrics.disk.getD 0 < threshold
      else false

/-- AlertManager._check_network_resolution for a `network_anomaly` alert. -/
def check_network_resolution (alert : Alert) (current_metrics : SecurityData) : Bool :=
  match current_metrics.network_traffic.getLast? with
  | none => false
  | some latest_network =>
      if str_starts_with alert.description "Excessive network connections" then
        latest_network.connections_total.getD 0 < 1000
      else if str_starts_with alert.description "High number of listening ports" then
        latest_network.listening.getD 0 < 30
      else false

/-- Loop body of `auto_resolve_alerts`: acts on one alert of the pre-loop
snapshot of the active list, resolving it (actor `system_auto_resolve`) in the
evolving state when its kind-specific check passes; the counter increments in
the same branch. -/
def auto_resolve_step (current_metrics : SecurityData) (now : Int)
    (acc : AlertManager × Nat) (alert : Alert) : AlertManager × Nat :=
  if !alert.auto_resolve then acc
  else if alert.type == "resource_abuse" then
    if check_resource_resolution alert current_metrics then
      ((resolve_alert acc.1 now alert.id "system_auto_resolve"
          (some "Resource usage normalized")).1, acc.2 + 1)
    else acc
  else if alert.type == "network_anomaly" then
    if check_network_resolution alert current_metrics then
      ((resolve_alert acc.1 now alert.id "system_auto_resolve"
          (some "Network activity normalized")).1, acc.2 + 1)
    else acc
  else acc

/-- Body of AlertManager.auto_resolve_alerts: iterates over the pre-loop copy
`self.alerts[:]`, returning the final state and the internal `resolved_count`. -/
def auto_resolve_alerts_run (st : AlertManager) (now : Int) (current_metrics : SecurityData) :
    AlertManager × Nat :=
  st.alerts.foldl (auto_resolve_step current_metrics now) (st, 0)

/-- AlertManager.auto_resolve_alerts.  The Python function computes (and
prints) `resolved_count` but ends without a `return` statement, so its return
value is `None`: the second component is the value the caller receives. -/
def auto_resolve_alerts (st : AlertManager) (now : Int) (current_metrics : SecurityData) :
    AlertManager × Option Nat :=
  ((auto_resolve_alerts_run st now current_metrics).1, none)

/-- AlertManager.get_active_alerts. -/
def get_active_alerts (st : AlertManager) : List Alert :=
  st.alerts.filter (fun a => a.status == "active")

/-- AlertManager.get_alerts_by_severity. -/
def get_alerts_by_severity (st : AlertManager) (severity : String) : List Alert :=
  st.alerts.filter (fun a => a.severity == severity)

/-- AlertManager.get_alerts_by_type. -/
def get_alerts_by_type (st : AlertManager) (alert_type : String) : List Alert :=
  st.alerts.filter (fun a => a.type == alert_type)

/-- Python counting-dict accumulation `d[k] = d.get(k, 0) + 1`, preserving
first-seen key order. -/
def incKey : List (String × Nat) → String → List (String × Nat)
  | [], k => [(k, 1)]
  | (k', v) :: rest, k =>
      if k' = k then (k', v + 1) :: rest else (k', v) :: incKey rest k

/-- Result record of `get_alert_statistics`. -/
structure AlertStatistics where
  total_alerts : Nat
  active_alerts : Nat
  escalated_alerts : Nat
  by_severity : List (String × Nat)
  by_type : List (String × Nat)
  by_status : List (String × Nat)
  total_history : Nat

/-- AlertManager.get_alert_statistics (the body cannot raise on well-typed
input, so the error dict of the `except` branch is unreachable). -/
def get_alert_statistics (st : AlertManager) : AlertStatistics :=
  { total_alerts := st.alerts.length
    active_alerts := (st.alerts.filter (fun a => a.status == "active")).length
    escalated_alerts := (st.alerts.filter (fun a => a.status == "escalated")).length
    by_severity := st.alerts.foldl (fun m a => incKey m a.severity) []
    by_type := st.alerts.foldl (fun m a => incKey m a.type) []
    by_status := st.alerts.foldl (fun m a => incKey m a.status) []
    total_history := st.alert_history.length }

/-- AlertManager.cleanup_old_alerts: drops history entries whose creation
timestamp is not strictly newer than `now - days` days. -/
def cleanup_old_alerts (st : AlertManager) (now : Int) (days : Int) : AlertManager :=
  { st with alert_history :=
      st.alert_history.filter (fun a => a.timestamp > now - days * 86400) }

/-- Readable rendering of a scalar `details` value (the exact text of
Python's `str()` is irrelevant to every property below, so nested collections
are rendered shallowly). -/
def val_to_string : Val → String
  | .i n => toString n
  | .s s => s
  | .arr _ => "[...]"
  | .obj _ => "\x7b...\x7d"

/-- Python `str()` of a details dict, shallow rendering. -/
def details_to_string (l : List (String × Val)) : String :=
  "\x7b" ++ String.intercalate ", " (l.map (fun kv => kv.1 ++ ": " ++ val_to_string kv.2)) ++ "\x7d"

/-- Python `str()` of a bool. -/
def bool_to_py_string (b : Bool) : String := if b then "True" else "False"

/-- Python `str()` of an optional string (`None` when absent). -/
def opt_to_py_string : Option String → String
  | none => "None"
  | some s => s

/-- Python `str()` of an optional timestamp. -/
def opt_int_to_py_string : Option Int → String
  | none => "None"
  | some n => toString n

/-- Python `str()` of the `escalation_time` field (a datetime or ISO string,
both carrying one timestamp). -/
def esc_time_to_string : EscTime → String
  | .deadline t => toString t
  | .escalatedAt t => toString t

/-- Python `str()` of the notification channel list. -/
def channels_to_string (l : List String) : String :=
  "[" ++ String.intercalate ", " l ++ "]"

/-- Keys of an alert dict in insertion order: the CSV header row
(`list(self.alerts[0].keys())`). -/
def alert_csv_headers : List String :=
  ["id", "threat_id", "timestamp", "type", "severity", "description", "source", "status",
   "details", "priority", "color", "icon", "escalation_time", "auto_resolve",
   "notification_channels", "acknowledged", "acknowledged_by", "acknowledged_at",
   "resolved", "resolved_at", "resolution_notes"]

/-- One CSV row: `str(alert.get(header, ''))` for each header. -/
def alert_csv_row (a : Alert) : List String :=
  [a.id, a.threat_id, toString a.timestamp, a.type, a.severity, a.description, a.source,
   a.status, details_to_string a.details, toString a.priority, a.color, a.icon,
   esc_time_to_string a.escalation_time, bool_to_py_string a.auto_resolve,
   channels_to_string a.notification_channels, bool_to_py_string a.acknowledged,
   opt_to_py_string a.acknowledged_by, opt_int_to_py_string a.acknowledged_at,
   bool_to_py_string a.resolved, opt_int_to_py_string a.resolved_at,
   opt_to_py_string a.resolution_notes]

/-- The CSV branch of `export_alerts`. -/
def csv_export (alerts : List Alert) : String :=
  if alerts.isEmpty then "No alerts to export"
  else
    String.intercalate "\n"
      (String.intercalate "," alert_csv_headers ::
       alerts.map (fun a => String.intercalate "," (alert_csv_row a)))

/-- The JSON branch of `export_alerts` (`json.dumps(self.alerts, default=str)`;
the concrete serialization text is abstracted as a key/value rendering). -/
def json_export (alerts : List Alert) : String :=
  "[" ++ String.intercalate ", "
    (alerts.map (fun a =>
      "\x7b" ++ String.intercalate ", "
        ((alert_csv_headers.zip (alert_csv_row a)).map
          (fun kv => "\"" ++ kv.1 ++ "\": \"" ++ kv.2 ++ "\"")) ++ "\x7d")) ++ "]"

/-- AlertManager.export_alerts: dispatches on `format.lower()`; the method
never writes `self`, which the pair's unchanged second component records.
Unknown formats fall through to the fixed message (returned, not raised). -/
def export_alerts (st : AlertManager) (format : String) : String × AlertManager :=
  if str_to_lower format = "json" then (json_export st.alerts, st)
  else if str_to_lower format = "csv" then (csv_export st.alerts, st)
  else ("Unsupported format. Use \x27json\x27 or \x27csv\x27", st)

/-- A lifecycle operation of the Alert Lifecycle Manager, with its ambient
inputs (timestamps, random id suffix, metrics) made explicit. -/
inductive Op where
  | create (now r : Int) (threat : Threat)
  | acknowledge (now : Int) (alert_id user : String)
  | resolve (now : Int) (alert_id user : String) (notes : Option String)
  | escalate (now : Int) (alert_id : String)
  | autoResolve (now : Int) (current_metrics : SecurityData)

/-- State transition of one manager operation. -/
def applyOp (st : AlertManager) : Op → AlertManager
  | .create now r threat => (create_alert st now r threat).1
  | .acknowledge now alert_id user => (acknowledge_alert st now alert_id user).1
  | .resolve now alert_id user notes => (resolve_alert st now alert_id user notes).1
  | .escalate now alert_id => (escalate_alert st now alert_id).1
  | .autoResolve now current_metrics => (auto_resolve_alerts st now current_metrics).1

/-- Run a sequence of lifecycle operations. -/
def runOps (st : AlertManager) (ops : List Op) : AlertManager :=
  ops.foldl applyOp st

/-! ### Sample inputs used by the concrete theorems -/

/-- A system snapshot reporting only a CPU usage percentage. -/
def cpu_snapshot (c : Int) : SystemSnapshot := ⟨some c, none, none, none⟩

/-- Three snapshots with CPU 40%, 50%, 75% and no other anomalous fields. -/
def c3_data : SecurityData := ⟨[cpu_snapshot 40, cpu_snapshot 50, cpu_snapshot 75], [], []⟩

/-- A single snapshot with CPU 96% (above the 95% threshold). -/
def c4_data : SecurityData := ⟨[cpu_snapshot 96], [], []⟩

/-- A single snapshot with 600 processes (above the 500-process threshold). -/
def c5_data : SecurityData := ⟨[⟨none, none, none, some 600⟩], [], []⟩

/-- A detected high-CPU threat, as `_analyze_system_metrics` emits it at
second 1 for a 96% reading. -/
def c1_threat : Threat :=
  ⟨"cpu_abuse_1", 1, "resource_abuse", "medium", "High CPU usage detected: 96%",
   "system_monitor", some [("cpu_usage", Val.i 96), ("threshold", Val.i 95)], "detected"⟩

/-- The active alert `create_alert` builds from `c1_threat` at second 1 with
random suffix 1234. -/
def cpu_alert_96 : Alert :=
  { id := "alert_1_1234", threat_id := "cpu_abuse_1", timestamp := 1,
    type := "resource_abuse", severity := "medium",
    description := "High CPU usage detected: 96%", source := "system_monitor",
    status := "active", details := [("cpu_usage", Val.i 96), ("threshold", Val.i 95)],
    priority := 2, color := "#ffc107", icon := "exclamation-triangle",
    escalation_time := EscTime.deadline 301, auto_resolve := true,
    notification_channels := ["dashboard", "log"], acknowledged := false,
    acknowledged_by := none, acknowledged_at := none, resolved := false,
    resolved_at := none, resolution_notes := none }

/-- Current metrics whose latest snapshot reports CPU 10% (below 70%). -/
def low_cpu_metrics : SecurityData := ⟨[cpu_snapshot 10], [], []⟩

/-- Current metrics whose latest snapshot reports CPU 75% (not below 70%). -/
def cpu75_metrics : SecurityData := ⟨[cpu_snapshot 75], [], []⟩

/-- The id prefixes of the detector's threat emission sites (the
`analysis_error` sites are unreachable on well-typed input; their ids in the
source are likewise built from `int(time.time())` alone). -/
def threat_id_prefixes : List String :=
  ["cpu_abuse_", "memory_abuse_", "disk_abuse_", "process_anomaly_",
   "network_anomaly_", "port_scan_", "network_errors_", "high_severity_events_",
   "brute_force_", "rapid_cpu_increase_", "network_spike_"]

/-- A threat carries the detection second `now` as its timestamp and an id
that is one of the fixed kind prefixes followed by `toString now` — i.e. the
id is determined by the kind and the second alone, with no random part. -/
def id_stamped (now : Int) (t : Threat) : Bool :=
  (t.timestamp == now) &&
  (threat_id_prefixes.any (fun pre => t.id == pre ++ toString now))

/-! ### List plumbing lemmas -/

theorem mem_if_singleton {c : Prop} [Decidable c] {x t : α}
    (h : t ∈ (if c then [x] else [])) : t = x := by
  split at h
  · simpa using h
  · simp at h

theorem find?_append_left_none {p : α → Bool} {l1 l2 : List α}
    (h : ∀ x ∈ l1, p x = false) : (l1 ++ l2).find? p = l2.find? p := by
  induction l1 with
  | nil => rfl
  | cons a as ih =>
      have ha := h a (List.mem_cons_self a as)
      simp only [List.cons_append, List.find?_cons, ha]
      exact ih (fun x hx => h x (List.mem_cons_of_mem a hx))

theorem find?_eq_some_split {p : α → Bool} {l : List α} {a : α}
    (h : l.find? p = some a) :
    ∃ l1 l2, l = l1 ++ a :: l2 ∧ (∀ x ∈ l1, p x = false) ∧ p a = true := by
  induction l with
  | nil => simp [List.find?] at h
  | cons b bs ih =>
      by_cases hb : p b = true
      · refine ⟨[], bs, ?_, by simp, ?_⟩
        · simp only [List.find?_cons, hb] at h
          simp [← Option.some_inj.mp h]
        · simp only [List.find?_cons, hb] at h
          rw [← Option.some_inj.mp h]; exact hb
      · have hb' : p b = false := Bool.eq_false_iff.mpr hb
        simp only [List.find?_cons, hb'] at h
        obtain ⟨l1, l2, heq, hall, hpa⟩ := ih h
        exact ⟨b :: l1, l2, by simp [heq], by
          intro x hx
          rcases List.mem_cons.mp hx with rfl | hx
          · exact hb'
          · exact hall x hx, hpa⟩

theorem updateFirst_append {p : α → Bool} {f : α → α} {l1 l2 : List α} {b : α}
    (h : ∀ x ∈ l1, p x = false) (hb : p b = true) :
    updateFirst p f (l1 ++ b :: l2) = l1 ++ f b :: l2 := by
  induction l1 with
  | nil => simp [updateFirst, hb]
  | cons a as ih =>
      have ha := h a (List.mem_cons_self a as)
      simp only [List.cons_append, updateFirst, ha]
      simp [ih (fun x hx => h x (List.mem_cons_of_mem a hx))]

theorem removeFirst_append {p : α → Bool} {l1 l2 : List α} {b : α}
    (h : ∀ x ∈ l1, p x = false) (hb : p b = true) :
    removeFirst p (l1 ++ b :: l2) = l1 ++ l2 := by
  induction l1 with
  | nil => simp [removeFirst, hb]
  | cons a as ih =>
      have ha := h a (List.mem_cons_self a as)
      simp only [List.cons_append, removeFirst, ha]
      simp [ih (fun x hx => h x (List.mem_cons_of_mem a hx))]

theorem mem_updateFirst {p : α → Bool} {f : α → α} {l : List α} {x : α}
    (h : x ∈ updateFirst p f l) : x ∈ l ∨ ∃ y ∈ l, x = f y := by
  induction l with
  | nil => simp [updateFirst] at h
  | cons a as ih =>
      simp only [updateFirst] at h
      split at h
      · rcases List.mem_cons.mp h with rfl | hx
        · exact Or.inr ⟨a, List.mem_cons_self a as, rfl⟩
        · exact Or.inl (List.mem_cons_of_mem a hx)
      · rcases List.mem_cons.mp h with rfl | hx
        · exact Or.inl (List.mem_cons_self x as)
        · rcases ih hx with h1 | ⟨y, hy, rfl⟩
          · exact Or.inl (List.mem_cons_of_mem a h1)
          · exact Or.inr ⟨y, List.mem_cons_of_mem a hy, rfl⟩

theorem mem_removeFirst {p : α → Bool} {l : List α} {x : α}
    (h : x ∈ removeFirst p l) : x ∈ l := by
  induction l with
  | nil => simp [removeFirst] at h
  | cons a as ih =>
      simp only [removeFirst] at h
      split at h
      · exact List.mem_cons_of_mem a h
      · rcases List.mem_cons.mp h with rfl | hx
        · exact List.mem_cons_self x as
        · exact List.mem_cons_of_mem a (ih hx)

theorem mem_trim_history {l : List Alert} {x : Alert} (h : x ∈ trim_history l) : x ∈ l := by
  unfold trim_history at h
  split at h
  · exact List.mem_of_mem_drop h
  · exact h

theorem trim_history_last {l : List Alert} {a : Alert} : a ∈ trim_history (l ++ [a]) := by
  unfold trim_history
  split
  · next hlen =>
      have hle : (l ++ [a]).length - 1000 ≤ l.length := by
        simp only [List.length_append, List.length_singleton]
        omega
      rw [List.drop_append_of_le_length hle]
      simp
  · simp

theorem getKey?_setKey (m : List (String × Int)) (k : String) (v : Int) :
    getKey? (setKey m k v) k = some v := by
  induction m with
  | nil => simp [setKey, getKey?, List.find?]
  | cons kv rest ih =>
      obtain ⟨k', v'⟩ := kv
      by_cases hk : k' = k
      · subst hk
        simp [setKey, getKey?, List.find?]
      · simp only [setKey, if_neg hk]
        simp only [getKey?, List.find?] at ih ⊢
        have : (k' == k) = false := by simpa using hk
        simp [this, ih]

/-! ### The lifecycle invariant -/

/-- Every alert held in the active list is unresolved, with status `active` or
`escalated`. -/
def AlertOk (a : Alert) : Prop :=
  a.resolved = false ∧ (a.status = "active" ∨ a.status = "escalated")

/-- Every history entry is the creation-time snapshot: unresolved and
`active`. -/
def HistOk (a : Alert) : Prop := a.resolved = false ∧ a.status = "active"

/-- Invariant of reachable `AlertManager` states. -/
def ManagerInv (st : AlertManager) : Prop :=
  (∀ a ∈ st.alerts, AlertOk a) ∧ (∀ a ∈ st.alert_history, HistOk a)

theorem inv_initial : ManagerInv initial_manager := by
  constructor <;> intro a ha <;> simp [initial_manager] at ha

theorem inv_create (st : AlertManager) (now r : Int) (t : Threat) (h : ManagerInv st) :
    ManagerInv (create_alert st now r t).1 := by
  obtain ⟨h1, h2⟩ := h
  constructor
  · intro a ha
    simp only [create_alert, List.mem_append, List.mem_singleton] at ha
    rcases ha with ha | rfl
    · exact h1 a ha
    · exact ⟨rfl, Or.inl rfl⟩
  · intro a ha
    simp only [create_alert] at ha
    rcases List.mem_append.mp (mem_trim_history ha) with ha' | ha'
    · exact h2 a ha'
    · rw [List.mem_singleton.mp ha']
      exact ⟨rfl, rfl⟩

theorem inv_acknowledge (st : AlertManager) (now : Int) (alert_id user : String)
    (h : ManagerInv st) : ManagerInv (acknowledge_alert st now alert_id user).1 := by
  obtain ⟨h1, h2⟩ := h
  cases hf : find_alert st alert_id with
  | none => simp only [acknowledge_alert, hf]; exact ⟨h1, h2⟩
  | some a0 =>
      simp only [acknowledge_alert, hf]
      refine ⟨?_, h2⟩
      intro a ha
      rcases mem_updateFirst ha with h' | ⟨y, hy, rfl⟩
      · exact h1 a h'
      · exact h1 y hy

theorem inv_resolve (st : AlertManager) (now : Int) (alert_id user : String)
    (notes : Option String) (h : ManagerInv st) :
    ManagerInv (resolve_alert st now alert_id user notes).1 := by
  obtain ⟨h1, h2⟩ := h
  cases hf : find_alert st alert_id with
  | none => simp only [resolve_alert, hf]; exact ⟨h1, h2⟩
  | some a0 =>
      simp only [resolve_alert, hf]
      exact ⟨fun a ha => h1 a (mem_removeFirst ha), h2⟩

theorem inv_escalate (st : AlertManager) (now : Int) (alert_id : String)
    (h : ManagerInv st) : ManagerInv (escalate_alert st now alert_id).1 := by
  obtain ⟨h1, h2⟩ := h
  cases hf : find_alert st alert_id with
  | none => simp only [escalate_alert, hf]; exact ⟨h1, h2⟩
  | some a0 =>
      simp only [escalate_alert, hf]
      split
      · refine ⟨?_, h2⟩
        intro a ha
        rcases mem_updateFirst ha with h' | ⟨y, hy, rfl⟩
        · exact h1 a h'
        · exact ⟨(h1 y hy).1, Or.inr rfl⟩
      · exact ⟨h1, h2⟩

theorem inv_auto_step (current_metrics : SecurityData) (now : Int)
    (acc : AlertManager × Nat) (alert : Alert) (h : ManagerInv acc.1) :
    ManagerInv (auto_resolve_step current_metrics now acc alert).1 := by
  unfold auto_resolve_step
  repeat' split
  all_goals first
    | exact h
    | exact inv_resolve acc.1 now alert.id "system_auto_resolve"
        (some "Resource usage normalized") h

theorem inv_auto_fold (current_metrics : SecurityData) (now : Int) :
    ∀ (l : List Alert) (acc : AlertManager × Nat), ManagerInv acc.1 →
      ManagerInv (l.foldl (auto_resolve_step current_metrics now) acc).1 := by
  intro l
  induction l with
  | nil => intro acc h; exact h
  | cons a as ih =>
      intro acc h
      exact ih _ (inv_auto_step current_metrics now acc a h)

theorem inv_auto_resolve (st : AlertManager) (now : Int) (current_metrics : SecurityData)
    (h : ManagerInv st) : ManagerInv (auto_resolve_alerts st now current_metrics).1 := by
  exact inv_auto_fold current_metrics now st.alerts (st, 0) h

theorem inv_applyOp (st : AlertManager) (op : Op) (h : ManagerInv st) : ManagerInv (applyOp st op) := by
  cases op with
  | create now r t => exact inv_create st now r t h
  | acknowledge now alert_id user => exact inv_acknowledge st now alert_id user h
  | resolve now alert_id user notes => exact inv_resolve st now alert_id user notes h
  | escalate now alert_id => exact inv_escalate st now alert_id h
  | autoResolve now current_metrics => exact inv_auto_resolve st now current_metrics h

theorem inv_runOps (st : AlertManager) (ops : List Op) (h : ManagerInv st) :
    ManagerInv (runOps st ops) := by
  induction ops generalizing st with
  | nil => exact h
  | cons op ops ih => exact ih (applyOp st op) (inv_applyOp st op h)

/-- Helper for C9: a list of alerts that are all `active` or `escalated`
splits exactly into the two status filters. -/
theorem length_split_active_escalated (l : List Alert)
    (h : ∀ a ∈ l, a.status = "active" ∨ a.status = "escalated") :
    l.length = (l.filter (fun a => a.status == "active")).length +
               (l.filter (fun a => a.status == "escalated")).length := by
  induction l with
  | nil => rfl
  | cons a as ih =>
      have ha := h a (List.mem_cons_self a as)
      have ih' := ih (fun b hb => h b (List.mem_cons_of_mem a hb))
      rcases ha with h1 | h1
      · have e1 : (a.status == "active") = true := by rw [h1]; rfl
        have e2 : (a.status == "escalated") = false := by rw [h1]; rfl
        simp [List.filter_cons, e1, e2]
        omega
      · have e1 : (a.status == "active") = false := by rw [h1]; rfl
        have e2 : (a.status == "escalated") = true := by rw [h1]; rfl
        simp [List.filter_cons, e1, e2]
        omega

/-- C6: for every alert reachable from the fresh manager through any sequence
of create/acknowledge/resolve/escalate/auto-resolve operations, whether held
in the active set or in the history, the `status` field equals `resolved`
exactly when the `resolved` flag is true. -/
theorem C6_status_iff_resolved_flag (ops : List Op) :
    ((runOps initial_manager ops).alerts ++ (runOps initial_manager ops).alert_history).all
      (fun a => (a.status == "resolved") == a.resolved) = true := by
  have hinv := inv_runOps initial_manager ops inv_initial
  rw [List.all_eq_true]
  intro a ha
  rcases List.mem_append.mp ha with h | h
  · obtain ⟨hres, hst⟩ := hinv.1 a h
    rcases hst with h1 | h1 <;> rw [h1, hres] <;> rfl
  · obtain ⟨hres, hst⟩ := hinv.2 a h
    rw [hst, hres]; rfl

/-- C9: in every reachable state, each alert in the manager's list has status
`active` or `escalated` (never `resolved`), and the statistics report
satisfies `total_alerts = active_alerts + escalated_alerts`. -/
theorem C9_total_eq_active_add_escalated (ops : List Op) :
    (runOps initial_manager ops).alerts.all
        (fun a => a.status == "active" || a.status == "escalated") = true ∧
    (get_alert_statistics (runOps initial_manager ops)).total_alerts =
      (get_alert_statistics (runOps initial_manager ops)).active_alerts +
        (get_alert_statistics (runOps initial_manager ops)).escalated_alerts := by
  have hinv := inv_runOps initial_manager ops inv_initial
  constructor
  · rw [List.all_eq_true]
    intro a ha
    rcases (hinv.1 a ha).2 with h1 | h1 <;> rw [h1] <;> rfl
  · have h := length_split_active_escalated (runOps initial_manager ops).alerts
      (fun a ha => (hinv.1 a ha).2)
    simpa [get_alert_statistics] using h

/-- C1 counterexample: create then resolve succeeds and empties the active
query, but the history entry for the alert keeps the creation-time snapshot
with `resolved = false` — not `resolved = true` as claimed (Python stores a
shallow `copy()` at creation and `resolve_alert` never touches it). -/
theorem C1_history_not_resolved_counterexample :
    (resolve_alert (create_alert initial_manager 1 1234 c1_threat).1 2
        (create_alert initial_manager 1 1234 c1_threat).2.id "admin" none).2 = true ∧
    get_active_alerts (resolve_alert (create_alert initial_manager 1 1234 c1_threat).1 2
        (create_alert initial_manager 1 1234 c1_threat).2.id "admin" none).1 = [] ∧
    ((resolve_alert (create_alert initial_manager 1 1234 c1_threat).1 2
        (create_alert initial_manager 1 1234 c1_threat).2.id "admin" none).1.alert_history.map
      (fun hv => (hv.id, hv.resolved))) = [("alert_1_1234", false)] :=
  ⟨rfl, rfl, rfl⟩

/-- C1 amended: after a successful `resolve(id, actor)` on an alert created by
`create(threat)` (whose fresh id does not collide with an existing active
alert), the alert is absent from the active-alerts query, and the
alert-history list contains an entry for that alert — the creation-time
snapshot, whose `resolved` flag is false. -/
theorem C1_create_resolve_roundtrip (st : AlertManager) (t : Threat) (n1 r n2 : Int)
    (u : String) (h : ∀ a ∈ st.alerts, a.id ≠ (create_alert st n1 r t).2.id) :
    (resolve_alert (create_alert st n1 r t).1 n2 (create_alert st n1 r t).2.id u none).2 = true ∧
    (∀ b ∈ get_active_alerts (resolve_alert (create_alert st n1 r t).1 n2
        (create_alert st n1 r t).2.id u none).1, b.id ≠ (create_alert st n1 r t).2.id) ∧
    (∃ hv ∈ (resolve_alert (create_alert st n1 r t).1 n2
        (create_alert st n1 r t).2.id u none).1.alert_history,
       hv.id = (create_alert st n1 r t).2.id ∧ hv.resolved = false) := by
  have halerts : (create_alert st n1 r t).1.alerts =
      st.alerts ++ [(create_alert st n1 r t).2] := rfl
  have hhist : (create_alert st n1 r t).1.alert_history =
      trim_history (st.alert_history ++ [(create_alert st n1 r t).2]) := rfl
  have hfalse : ∀ x ∈ st.alerts, (x.id == (create_alert st n1 r t).2.id) = false := by
    intro x hx
    exact beq_eq_false_iff_ne.mpr (h x hx)
  have hfind : find_alert (create_alert st n1 r t).1 (create_alert st n1 r t).2.id =
      some (create_alert st n1 r t).2 := by
    unfold find_alert
    rw [halerts, find?_append_left_none hfalse]
    simp [List.find?]
  have hremove : removeFirst (fun a => a.id == (create_alert st n1 r t).2.id)
      (create_alert st n1 r t).1.alerts = st.alerts := by
    rw [halerts]
    have : st.alerts ++ [(create_alert st n1 r t).2] =
        st.alerts ++ (create_alert st n1 r t).2 :: [] := rfl
    rw [this, removeFirst_append hfalse (by simp), List.append_nil]
  refine ⟨?_, ?_, ?_⟩
  · simp only [resolve_alert, hfind]
  · intro b hb
    simp only [resolve_alert, hfind, get_active_alerts] at hb
    rw [hremove] at hb
    exact h b (List.mem_filter.mp hb).1
  · refine ⟨(create_alert st n1 r t).2, ?_, rfl, rfl⟩
    simp only [resolve_alert, hfind]
    rw [hhist]
    exact trim_history_last

/-- Witness for C1_create_resolve_roundtrip: the fresh manager and the
concrete high-CPU threat. -/
theorem C1_create_resolve_roundtrip_witness :
    (∀ a ∈ initial_manager.alerts,
        a.id ≠ (create_alert initial_manager 1 1234 c1_threat).2.id) ∧
    ((resolve_alert (create_alert initial_manager 1 1234 c1_threat).1 2
        (create_alert initial_manager 1 1234 c1_threat).2.id "admin" none).2 = true ∧
     (∀ b ∈ get_active_alerts (resolve_alert (create_alert initial_manager 1 1234 c1_threat).1 2
        (create_alert initial_manager 1 1234 c1_threat).2.id "admin" none).1,
        b.id ≠ (create_alert initial_manager 1 1234 c1_threat).2.id) ∧
     (∃ hv ∈ (resolve_alert (create_alert initial_manager 1 1234 c1_threat).1 2
        (create_alert initial_manager 1 1234 c1_threat).2.id "admin" none).1.alert_history,
        hv.id = (create_alert initial_manager 1 1234 c1_threat).2.id ∧ hv.resolved = false)) :=
  ⟨by simp [initial_manager],
   C1_create_resolve_roundtrip initial_manager c1_threat 1 1234 2 "admin"
     (by simp [initial_manager])⟩

/-- C2: `auto_resolve_alerts` never returns an integer — the Python function
ends without a `return` statement, so every call returns `None`, even when it
did resolve alerts (here one alert is resolved, the internal counter reaches
1, yet the returned value is `None`). -/
theorem C2_auto_resolve_returns_none :
    (∀ (st : AlertManager) (now : Int) (current_metrics : SecurityData),
        (auto_resolve_alerts st now current_metrics).2 = none) ∧
    (auto_resolve_alerts_run ⟨[cpu_alert_96], []⟩ 2 low_cpu_metrics).2 = 1 ∧
    (auto_resolve_alerts ⟨[cpu_alert_96], []⟩ 2 low_cpu_metrics).1.alerts = [] :=
  ⟨fun _ _ _ => rfl, rfl, rfl⟩

/-- C7: for an active, auto-resolve-eligible `resource_abuse` alert whose
description begins `High CPU usage`, `auto_resolve_alerts` removes it from the
active set (via `resolve_alert` with actor `system_auto_resolve`) when the
latest snapshot's CPU is below the 70% resolve threshold, and leaves the state
untouched — the alert still active — when the CPU reads 75%. -/
theorem C7_auto_resolve_cpu (a : Alert) (hist : List Alert) (m : SecurityData)
    (s : SystemSnapshot) (now c : Int)
    (h1 : a.auto_resolve = true) (h2 : a.type = "resource_abuse")
    (h3 : str_starts_with a.description "High CPU usage" = true)
    (h4 : a.status = "active")
    (h5 : m.system_metrics.getLast? = some s) (h6 : s.cpu = some c) :
    (c < 70 → (auto_resolve_alerts ⟨[a], hist⟩ now m).1.alerts = [] ∧
              (auto_resolve_alerts ⟨[a], hist⟩ now m).1.alert_history = hist) ∧
    (c = 75 → (auto_resolve_alerts ⟨[a], hist⟩ now m).1 = ⟨[a], hist⟩ ∧
              a ∈ get_active_alerts (auto_resolve_alerts ⟨[a], hist⟩ now m).1) := by
  have hcheck : check_resource_resolution a m = decide (c < 70) := by
    unfold check_resource_resolution
    rw [h5, h3]
    simp only [if_true, h6, Option.getD_some]
    rfl
  have hres : (resolve_alert ⟨[a], hist⟩ now a.id "system_auto_resolve"
      (some "Resource usage normalized")).1 = ⟨[], hist⟩ := by
    unfold resolve_alert find_alert
    simp [List.find?, removeFirst]
  have hbase : (auto_resolve_alerts ⟨[a], hist⟩ now m).1 =
      (auto_resolve_step m now (⟨[a], hist⟩, 0) a).1 := rfl
  have hstep2 : auto_resolve_step m now (⟨[a], hist⟩, 0) a =
      (if check_resource_resolution a m then
        ((resolve_alert ⟨[a], hist⟩ now a.id "system_auto_resolve"
            (some "Resource usage normalized")).1, 1)
       else (⟨[a], hist⟩, 0)) := by
    unfold auto_resolve_step
    rw [h1]
    have ht : (a.type == "resource_abuse") = true := by rw [h2]; rfl
    rw [ht]
    simp
  constructor
  · intro hc
    have : check_resource_resolution a m = true := by rw [hcheck]; exact decide_eq_true hc
    rw [hbase, hstep2, this, if_pos rfl, hres]
    exact ⟨rfl, rfl⟩
  · intro hc
    subst hc
    have : check_resource_resolution a m = false := by rw [hcheck]; rfl
    rw [hbase, hstep2, this]
    refine ⟨rfl, ?_⟩
    simp only [if_neg Bool.false_ne_true]
    unfold get_active_alerts
    simp only
    have : (a.status == "active") = true := by rw [h4]; rfl
    simp [List.mem_filter, this]

/-- Witness for C7_auto_resolve_cpu: the concrete 96%-CPU alert against a
10%-CPU snapshot. -/
theorem C7_auto_resolve_cpu_witness :
    cpu_alert_96.auto_resolve = true ∧
    cpu_alert_96.type = "resource_abuse" ∧
    str_starts_with cpu_alert_96.description "High CPU usage" = true ∧
    cpu_alert_96.status = "active" ∧
    (auto_resolve_alerts ⟨[cpu_alert_96], []⟩ 2 low_cpu_metrics).1.alerts = [] :=
  ⟨rfl, rfl, by decide, rfl,
   ((C7_auto_resolve_cpu cpu_alert_96 [] low_cpu_metrics (cpu_snapshot 10) 2 10
      rfl rfl (by decide) rfl rfl rfl).1 (by decide)).1⟩

/-- C8: for every format whose lowercasing is neither `json` nor `csv`,
`export_alerts` returns the fixed unsupported-format message (no exception
path exists) and leaves the manager state unchanged. -/
theorem C8_export_unsupported (st : AlertManager) (format : String)
    (h1 : str_to_lower format ≠ "json") (h2 : str_to_lower format ≠ "csv") :
    export_alerts st format =
      ("Unsupported format. Use \x27json\x27 or \x27csv\x27", st) := by
  unfold export_alerts
  rw [if_neg h1, if_neg h2]

/-- Witness for C8_export_unsupported: format `xml` on the fresh manager. -/
theorem C8_export_unsupported_witness :
    str_to_lower "xml" ≠ "json" ∧ str_to_lower "xml" ≠ "csv" ∧
    export_alerts initial_manager "xml" =
      ("Unsupported format. Use \x27json\x27 or \x27csv\x27", initial_manager) :=
  ⟨by decide, by decide,
   C8_export_unsupported initial_manager "xml" (by decide) (by decide)⟩

/-- C3 counterexample: on the 40/50/75 CPU scenario the analysis emits exactly
one threat, the rapid-increase trend threat — and its `type` field is
`resource_abuse`, so the count of `resource_abuse` threats is 1, not 0. -/
theorem C3_trend_type_counterexample :
    ((analyze_data initial_detector c3_data 0 0).1.countP
        (fun t => t.type == "resource_abuse")) ≠ 0 ∧
    ((analyze_data initial_detector c3_data 0 0).1.map (fun t => (t.id, t.type))) =
      [("rapid_cpu_increase_0", "resource_abuse")] :=
  ⟨by decide, rfl⟩

/-- C3 amended: feeding three snapshots with CPU 40%, 50%, 75% yields no
threshold-breach threat (none from `system_monitor`): the single emitted
threat is the rapid-increase trend threat from `pattern_analyzer` (which
itself carries type `resource_abuse`), and no `brute_force` threat. -/
theorem C3_trend_scenario (det : ThreatDetector) (now dur : Int) :
    ((analyze_data det c3_data now dur).1.map (fun t => (t.type, t.source))) =
      [("resource_abuse", "pattern_analyzer")] ∧
    ((analyze_data det c3_data now dur).1.countP (fun t => t.type == "brute_force")) = 0 :=
  ⟨rfl, rfl⟩

/-- C4 counterexample: two separate analyses of a 96%-CPU snapshot in the same
second both emit a threat with the identical id `cpu_abuse_500` — threat ids
carry no random disambiguator, so distinct occurrences of the same kind within
one second collide. -/
theorem C4_same_second_id_collision :
    ((analyze_data initial_detector c4_data 500 0).1.map (fun t => t.id)) =
      ["cpu_abuse_500"] ∧
    ((analyze_data (analyze_data initial_detector c4_data 500 0).2 c4_data 500 0).1.map
        (fun t => t.id)) = ["cpu_abuse_500"] :=
  ⟨rfl, rfl⟩

theorem all_append_of_all {p : α → Bool} {l1 l2 : List α}
    (h1 : l1.all p = true) (h2 : l2.all p = true) : (l1 ++ l2).all p = true := by
  simp [List.all_append, h1, h2]

theorem ids_system (det : ThreatDetector) (s : SystemSnapshot) (now : Int) :
    ((analyze_system_metrics det s now).1).all (id_stamped now) = true := by
  simp only [analyze_system_metrics]
  repeat' split
  all_goals simp [id_stamped, threat_id_prefixes, List.all_append]

theorem ids_network (n : NetworkSnapshot) (now : Int) :
    (analyze_network_traffic n now).all (id_stamped now) = true := by
  simp only [analyze_network_traffic]
  repeat' split
  all_goals simp [id_stamped, threat_id_prefixes, List.all_append]

theorem ids_events (events : List SecurityEvent) (now : Int) :
    (analyze_security_events events now).all (id_stamped now) = true := by
  simp only [analyze_security_events]
  repeat' split
  all_goals simp [id_stamped, threat_id_prefixes, List.all_append]

theorem ids_patterns (d : SecurityData) (now : Int) :
    (analyze_patterns d now).all (id_stamped now) = true := by
  simp only [analyze_patterns]
  repeat' split
  all_goals simp [id_stamped, threat_id_prefixes, List.all_append]

theorem analyze_data_fst (det : ThreatDetector) (d : SecurityData) (now dur : Int) :
    (analyze_data det d now dur).1 =
      (match d.system_metrics.getLast? with
        | some latest_system => analyze_system_metrics det latest_system now
        | none => ([], det)).1 ++
      (match d.network_traffic.getLast? with
        | some latest_network => analyze_network_traffic latest_network now
        | none => []) ++
      (if d.security_events.isEmpty then []
       else analyze_security_events d.security_events now) ++
      analyze_patterns d now := rfl

/-- C4 amended: for every input, every threat the detector emits carries the
detection second as its timestamp and an identifier that is its kind prefix
plus that integer second alone — a deterministic function of kind and second
with no random disambiguator, identical across occurrences within a second. -/
theorem C4_id_from_timestamp_only (det : ThreatDetector) (security_data : SecurityData)
    (now dur : Int) :
    ((analyze_data det security_data now dur).1).all (id_stamped now) = true := by
  rw [analyze_data_fst]
  refine all_append_of_all (all_append_of_all (all_append_of_all ?_ ?_) ?_) ?_
  · cases security_data.system_metrics.getLast? with
    | none => rfl
    | some s => exact ids_system det s now
  · cases security_data.network_traffic.getLast? with
    | none => rfl
    | some n => exact ids_network n now
  · split
    · rfl
    · exact ids_events security_data.security_events now
  · exact ids_patterns security_data now

/-! ### Cooldown lemmas for the suspicious-process threat -/

theorem countSusp_system (det : ThreatDetector) (s : SystemSnapshot) (now : Int) :
    (analyze_system_metrics det s now).1.countP (fun t => t.type == "suspicious_process") =
      (if s.processes.getD 0 > 500 then
        (if (should_send_alert det "process_anomaly" now).1 then 1 else 0) else 0) := by
  have e1 : (("resource_abuse" : String) == "suspicious_process") = false := rfl
  have e2 : (("suspicious_process" : String) == "suspicious_process") = true := rfl
  simp only [analyze_system_metrics, List.countP_append]
  repeat' split
  all_goals simp_all [List.countP_cons, List.countP_nil, List.countP_append, e1, e2]

theorem state_system (det : ThreatDetector) (s : SystemSnapshot) (now : Int) :
    (analyze_system_metrics det s now).2 =
      (if s.processes.getD 0 > 500 then (should_send_alert det "process_anomaly" now).2
       else det) := by
  simp only [analyze_system_metrics]
  split <;> rfl

theorem countSusp_network (n : NetworkSnapshot) (now : Int) :
    (analyze_network_traffic n now).countP (fun t => t.type == "suspicious_process") = 0 := by
  have e : (("network_anomaly" : String) == "suspicious_process") = false := rfl
  simp only [analyze_network_traffic, List.countP_append]
  repeat' split
  all_goals simp [List.countP_cons, List.countP_nil, e]

theorem countSusp_events (events : List SecurityEvent) (now : Int) :
    (analyze_security_events events now).countP (fun t => t.type == "suspicious_process") = 0 := by
  have e1 : (("security_event" : String) == "suspicious_process") = false := rfl
  have e2 : (("brute_force" : String) == "suspicious_process") = false := rfl
  simp only [analyze_security_events, List.countP_append]
  repeat' split
  all_goals simp [List.countP_cons, List.countP_nil, e1, e2]

theorem countSusp_patterns (d : SecurityData) (now : Int) :
    (analyze_patterns d now).countP (fun t => t.type == "suspicious_process") = 0 := by
  have e1 : (("resource_abuse" : String) == "suspicious_process") = false := rfl
  have e2 : (("network_anomaly" : String) == "suspicious_process") = false := rfl
  simp only [analyze_patterns, List.countP_append]
  repeat' split
  all_goals simp [List.countP_cons, List.countP_nil, e1, e2]

theorem countSusp_analyze (det : ThreatDetector) (d : SecurityData) (now dur : Int)
    (s : SystemSnapshot) (hsys : d.system_metrics.getLast? = some s) :
    (analyze_data det d now dur).1.countP (fun t => t.type == "suspicious_process") =
      (analyze_system_metrics det s now).1.countP (fun t => t.type == "suspicious_process") := by
  simp only [analyze_data, hsys, List.countP_append]
  rw [countSusp_patterns]
  have hev : (if d.security_events.isEmpty then ([] : List Threat)
      else analyze_security_events d.security_events now).countP
        (fun (t : Threat) => t.type == "suspicious_process") = 0 := by
    split
    · rfl
    · exact countSusp_events d.security_events now
  have hnet : (match d.network_traffic.getLast? with
      | some latest_network => analyze_network_traffic latest_network now
      | none => ([] : List Threat)).countP
        (fun (t : Threat) => t.type == "suspicious_process") = 0 := by
    cases d.network_traffic.getLast? with
    | none => rfl
    | some n => exact countSusp_network n now
  rw [hev, hnet]
  omega

theorem state_analyze (det : ThreatDetector) (d : SecurityData) (now dur : Int)
    (s : SystemSnapshot) (hsys : d.system_metrics.getLast? = some s) :
    (analyze_data det d now dur).2.last_alert_time =
      (analyze_system_metrics det s now).2.last_alert_time := by
  simp only [analyze_data, hsys]

theorem should_send_fired_state (det : ThreatDetector) (ty : String) (now : Int)
    (h : (should_send_alert det ty now).1 = true) :
    (should_send_alert det ty now).2.last_alert_time =
      setKey det.last_alert_time ty now := by
  unfold should_send_alert at h ⊢
  cases hk : getKey? det.last_alert_time ty with
  | none => rfl
  | some last =>
      rw [hk] at h
      dsimp only at h ⊢
      by_cases hge : now - last ≥ alert_cooldown
      · rw [if_pos hge]
      · rw [if_neg hge] at h
        simp at h

theorem should_send_suppressed (det det' : ThreatDetector) (ty : String) (t1 t2 : Int)
    (hfired : (should_send_alert det ty t1).1 = true)
    (hstate : det'.last_alert_time = (should_send_alert det ty t1).2.last_alert_time)
    (hwin : t2 - t1 < alert_cooldown) :
    (should_send_alert det' ty t2).1 = false := by
  have hmap : det'.last_alert_time = setKey det.last_alert_time ty t1 := by
    rw [hstate, should_send_fired_state det ty t1 hfired]
  unfold should_send_alert
  rw [hmap, getKey?_setKey]
  simp only
  rw [if_neg (by omega)]

/-- C5: across two consecutive analyses whose snapshots both exceed the
500-process threshold and whose timestamps lie within the 60-second cooldown
window, at most one `suspicious_process` threat is emitted in total. -/
theorem C5_suspicious_process_cooldown (det : ThreatDetector) (d1 d2 : SecurityData)
    (s1 s2 : SystemSnapshot) (t1 t2 dur1 dur2 : Int)
    (h1 : d1.system_metrics.getLast? = some s1) (hp1 : s1.processes.getD 0 > 500)
    (h2 : d2.system_metrics.getLast? = some s2) (hp2 : s2.processes.getD 0 > 500)
    (hord : t1 ≤ t2) (hwin : t2 - t1 < 60) :
    ((analyze_data det d1 t1 dur1).1.countP (fun t => t.type == "suspicious_process")) +
    ((analyze_data (analyze_data det d1 t1 dur1).2 d2 t2 dur2).1.countP
        (fun t => t.type == "suspicious_process")) ≤ 1 := by
  rw [countSusp_analyze det d1 t1 dur1 s1 h1,
      countSusp_analyze (analyze_data det d1 t1 dur1).2 d2 t2 dur2 s2 h2,
      countSusp_system, countSusp_system, if_pos hp1, if_pos hp2]
  by_cases hs : (should_send_alert det "process_anomaly" t1).1 = true
  · have hstate : (analyze_data det d1 t1 dur1).2.last_alert_time =
        (should_send_alert det "process_anomaly" t1).2.last_alert_time := by
      rw [state_analyze det d1 t1 dur1 s1 h1, state_system, if_pos hp1]
    have hsup := should_send_suppressed det (analyze_data det d1 t1 dur1).2
      "process_anomaly" t1 t2 hs hstate (by simpa [alert_cooldown] using hwin)
    rw [hs, hsup]
    simp
  · have hs' : (should_send_alert det "process_anomaly" t1).1 = false :=
      Bool.eq_false_iff.mpr hs
    have hz : (if (false = true) then (1 : Nat) else 0) = 0 := rfl
    rw [hs', hz, Nat.zero_add]
    split <;> simp

/-- Witness for C5_suspicious_process_cooldown: the fresh detector analysing
the 600-process snapshot at seconds 0 and 30. -/
theorem C5_suspicious_process_cooldown_witness :
    c5_data.system_metrics.getLast? = some ⟨none, none, none, some 600⟩ ∧
    (⟨none, none, none, some 600⟩ : SystemSnapshot).processes.getD 0 > 500 ∧
    ((analyze_data initial_detector c5_data 0 0).1.countP
        (fun t => t.type == "suspicious_process")) +
    ((analyze_data (analyze_data initial_detector c5_data 0 0).2 c5_data 30 0).1.countP
        (fun t => t.type == "suspicious_process")) ≤ 1 :=
  ⟨rfl, by decide,
   C5_suspicious_process_cooldown initial_detector c5_data c5_data
     ⟨none, none, none, some 600⟩ ⟨none, none, none, some 600⟩ 0 30 0 0
     rfl (by decide) rfl (by decide) (by decide) (by decide)⟩

theorem find?_prefix_none {p : α → Bool} {l1 l2 : List α} {b : α}
    (h : ∀ x ∈ l1, p x = false) (hb : p b = true) :
    (l1 ++ b :: l2).find? p = some b := by
  rw [find?_append_left_none h]
  simp [List.find?, hb]

/-- C10: after a successful `escalate(id)`, the escalated alert no longer
appears in the active-alerts query (which keeps only status `active`), yet it
remains in the manager's alert list, and both `acknowledge(id, actor)` and a
subsequent `resolve(id, actor)` on that id still succeed and return true. -/
theorem C10_escalate_then_ack_resolve (st : AlertManager) (now now2 now3 : Int)
    (alert_id u1 u2 : String)
    (hesc : (escalate_alert st now alert_id).2 = true) :
    ∃ a ∈ (escalate_alert st now alert_id).1.alerts,
      a.id = alert_id ∧ a.status = "escalated" ∧
      a ∉ get_active_alerts (escalate_alert st now alert_id).1 ∧
      (acknowledge_alert (escalate_alert st now alert_id).1 now2 alert_id u1).2 = true ∧
      (resolve_alert (acknowledge_alert (escalate_alert st now alert_id).1 now2 alert_id u1).1
          now3 alert_id u2 none).2 = true := by
  cases hf : find_alert st alert_id with
  | none =>
      unfold escalate_alert at hesc
      rw [hf] at hesc
      simp at hesc
  | some a0 =>
      have hesc' := hesc
      unfold escalate_alert at hesc'
      rw [hf] at hesc'
      dsimp only at hesc'
      by_cases hst : (a0.status == "active") = true
      · have hf' : st.alerts.find? (fun a => a.id == alert_id) = some a0 := hf
        obtain ⟨l1, l2, heq, hall, hpa⟩ := find?_eq_some_split hf'
        have hX : (escalate_alert st now alert_id).1.alerts =
            l1 ++ esc_mark now a0 :: l2 := by
          unfold escalate_alert
          rw [hf]
          dsimp only
          rw [if_pos hst]
          dsimp only
          rw [heq]
          exact updateFirst_append hall hpa
        have hpfa : ((esc_mark now a0).id == alert_id) = true := hpa
        have hpga : ((ack_mark now2 u1 (esc_mark now a0)).id == alert_id) = true := hpa
        have hack_true : (acknowledge_alert (escalate_alert st now alert_id).1
            now2 alert_id u1).2 = true := by
          unfold acknowledge_alert find_alert
          rw [hX, find?_prefix_none hall hpfa]
        have hack_alerts : (acknowledge_alert (escalate_alert st now alert_id).1
            now2 alert_id u1).1.alerts =
            l1 ++ ack_mark now2 u1 (esc_mark now a0) :: l2 := by
          unfold acknowledge_alert find_alert
          rw [hX, find?_prefix_none hall hpfa]
          dsimp only
          exact updateFirst_append hall hpfa
        refine ⟨esc_mark now a0, ?_, eq_of_beq hpa, rfl, ?_, hack_true, ?_⟩
        · rw [hX]
          exact List.mem_append_right _ (List.mem_cons_self _ _)
        · intro hmem
          have hact := (List.mem_filter.mp hmem).2
          have hstat : ((esc_mark now a0).status == "active") = false := rfl
          rw [hstat] at hact
          cases hact
        · unfold resolve_alert find_alert
          rw [hack_alerts, find?_prefix_none hall hpga]
      · rw [if_neg hst] at hesc'
        simp at hesc'

/-- Witness for C10_escalate_then_ack_resolve: escalating the concrete active
high-CPU alert, then acknowledging and resolving it. -/
theorem C10_escalate_then_ack_resolve_witness :
    (escalate_alert ⟨[cpu_alert_96], []⟩ 5 "alert_1_1234").2 = true ∧
    (∃ a ∈ (escalate_alert ⟨[cpu_alert_96], []⟩ 5 "alert_1_1234").1.alerts,
      a.id = "alert_1_1234" ∧ a.status = "escalated" ∧
      a ∉ get_active_alerts (escalate_alert ⟨[cpu_alert_96], []⟩ 5 "alert_1_1234").1 ∧
      (acknowledge_alert (escalate_alert ⟨[cpu_alert_96], []⟩ 5 "alert_1_1234").1 6
          "alert_1_1234" "bob").2 = true ∧
      (resolve_alert (acknowledge_alert (escalate_alert ⟨[cpu_alert_96], []⟩ 5
          "alert_1_1234").1 6 "alert_1_1234" "bob").1 7 "alert_1_1234" "bob" none).2 = true) :=
  ⟨rfl, C10_escalate_then_ack_resolve ⟨[cpu_alert_96], []⟩ 5 6 7 "alert_1_1234" "bob" "bob" rfl⟩
